import Mathlib

/-!
Shallow embedding of `src/app/recipe_optimizer/resources/resource.py`:
the hierarchical resource-allocation engine (QuantityResource,
SpatialResource with its 2D grid placement search, and the Item leaf).

Real-valued dimensions are modelled as `ℚ` (the code only ever performs
division, truncation to int, multiplication and comparisons on them).
Python's `int()` truncates toward zero, modelled by `truncQ`.
The numpy boolean occupancy matrix is modelled as a `Grid`: fixed
`rows`/`cols` and the finite set `occ` of occupied cells; numpy slice
assignment clips to the array bounds, which `rectCells` reproduces by
intersecting the rectangle with the bounds.
Python object identity (dict keys, `in`, `list.remove`) is modelled by
giving every child an `id : ℕ`; `ChildRef` carries the identity together
with the variant data a spatial parent inspects (`dimensions` for
SpatialResource/Item children, nothing for QuantityResource children).
Inert constructor arguments (`resource_type`, `unit`) are omitted: the
engine stores them but no operation's result depends on them.
-/

/-- Python `int(q)`: truncation toward zero. -/
def truncQ (q : ℚ) : ℤ :=
  if 0 ≤ q then ⌊q⌋ else -⌊-q⌋

/-- `SpatialResource._to_grid_units`: `int(value / grid_precision)`. -/
def toGridUnits (precision value : ℚ) : ℤ :=
  truncQ (value / precision)

/-- `SpatialResource._from_grid_units`: `value * grid_precision`. -/
def fromGridUnits (precision : ℚ) (value : ℕ) : ℚ :=
  (value : ℚ) * precision

/-- `Dimensions` dataclass. -/
structure Dimensions where
  length : ℚ
  width : ℚ
deriving DecidableEq

/-- `Dimensions.area`. -/
def Dimensions.area (d : Dimensions) : ℚ :=
  d.length * d.width

/-- `PlacedItem` dataclass. -/
structure PlacedItem where
  dimensions : Dimensions
  position : ℕ × ℕ
  rotated : Bool
deriving DecidableEq

/-- `PlacedItem.occupied_cells`: the rectangle spanned from `position`,
with `int(length)`/`int(width)` swapped when `rotated`. -/
def PlacedItem.occupiedCells (p : PlacedItem) : Finset (ℕ × ℕ) :=
  let l := (truncQ p.dimensions.length).toNat
  let w := (truncQ p.dimensions.width).toNat
  let lw := if p.rotated then (w, l) else (l, w)
  Finset.Ico p.position.1 (p.position.1 + lw.1) ×ˢ
    Finset.Ico p.position.2 (p.position.2 + lw.2)

/-- The numpy boolean occupancy matrix `self.grid`. -/
structure Grid where
  rows : ℕ
  cols : ℕ
  occ : Finset (ℕ × ℕ)
deriving DecidableEq

/-- Cells addressed by the numpy slice `grid[x:x+l, y:y+w]`: the
rectangle clipped to the array bounds. -/
def rectCells (rows cols x l y w : ℕ) : Finset (ℕ × ℕ) :=
  (Finset.range rows ×ˢ Finset.range cols).filter
    (fun p => x ≤ p.1 ∧ p.1 < x + l ∧ y ≤ p.2 ∧ p.2 < y + w)

/-- `grid[x:x+l, y:y+w] = True`. -/
def Grid.mark (g : Grid) (x l y w : ℕ) : Grid :=
  { g with occ := g.occ ∪ rectCells g.rows g.cols x l y w }

/-- `grid[x:x+l, y:y+w] = False`. -/
def Grid.clear (g : Grid) (x l y w : ℕ) : Grid :=
  { g with occ := g.occ \ rectCells g.rows g.cols x l y w }

/-- `grid[x:x+l, y:y+w].any()`. -/
def Grid.sliceAny (g : Grid) (x l y w : ℕ) : Bool :=
  decide (rectCells g.rows g.cols x l y w ∩ g.occ).Nonempty

/-- The waste computed for one feasible position inside
`_find_optimal_placement_on_grid`: mark the candidate rectangle on a
copy, bound all occupied cells, and count the unused cells of the
bounding box. -/
def Grid.waste (g : Grid) (x l y w : ℕ) : ℕ :=
  let occ2 := (g.mark x l y w).occ
  if h : occ2.Nonempty then
    let rowIdx := occ2.image Prod.fst
    let colIdx := occ2.image Prod.snd
    let minX := rowIdx.min' (h.image Prod.fst)
    let maxX := rowIdx.max' (h.image Prod.fst) + 1
    let minY := colIdx.min' (h.image Prod.snd)
    let maxY := colIdx.max' (h.image Prod.snd) + 1
    let used := (occ2.filter
      (fun p => minX ≤ p.1 ∧ p.1 < maxX ∧ minY ≤ p.2 ∧ p.2 < maxY)).card
    (maxX - minX) * (maxY - minY) - used
  else
    l * w

/-- Anchor positions scanned for one orientation: `x` ascending over
`range(rows - l + 1)`, then `y` ascending over `range(cols - w + 1)`.
(`rows + 1 - l` in `ℕ` is empty exactly when Python's range is.) -/
def scanPositions (rows cols l w : ℕ) : List (ℕ × ℕ) :=
  (List.range (rows + 1 - l)).flatMap
    (fun x => (List.range (cols + 1 - w)).map (fun y => (x, y)))

/-- The full candidate list in scan order: unrotated orientation first,
then rotated, each over its anchor positions. -/
def orientCandidates (rows cols length width : ℕ) :
    List (ℕ × ℕ × Bool × ℕ × ℕ) :=
  ([(length, width, false), (width, length, true)] :
      List (ℕ × ℕ × Bool)).flatMap
    (fun o => match o with
      | (l, w, r) =>
        (scanPositions rows cols l w).map (fun p => (l, w, r, p.1, p.2)))

/-- Feasibility of one candidate: `not grid[x:x+l, y:y+w].any()`. -/
def feasibleCand (g : Grid) : ℕ × ℕ × Bool × ℕ × ℕ → Bool :=
  fun c => match c with
  | (l, w, _r, x, y) => !(g.sliceAny x l y w)

/-- One step of the best-placement loop, carrying `(best, min_waste)`.
Note: the `PlacedItem` it builds stores `from_grid_units(l)` and
`from_grid_units(w)` of the ORIENTATION being tried, i.e. the possibly
swapped placed extents — exactly as the source does. -/
def searchStep (precision : ℚ) (g : Grid)
    (best : Option (PlacedItem × ℕ)) (c : ℕ × ℕ × Bool × ℕ × ℕ) :
    Option (PlacedItem × ℕ) :=
  match c with
  | (l, w, r, x, y) =>
    if feasibleCand g (l, w, r, x, y) then
      let wst := g.waste x l y w
      match best with
      | none =>
        some (⟨⟨fromGridUnits precision l, fromGridUnits precision w⟩,
          (x, y), r⟩, wst)
      | some (b, mw) =>
        if wst < mw then
          some (⟨⟨fromGridUnits precision l, fromGridUnits precision w⟩,
            (x, y), r⟩, wst)
        else some (b, mw)
    else best

/-- `SpatialResource._find_optimal_placement_on_grid`. -/
def findOptimalPlacementOnGrid (precision : ℚ) (length width : ℕ)
    (g : Grid) : Option PlacedItem :=
  ((orientCandidates g.rows g.cols length width).foldl
    (searchStep precision g) none).map Prod.fst

/-- `searchStep` stripped of the `PlacedItem` construction: it tracks
the winning candidate tuple and its waste. -/
def coreStep (g : Grid) (best : Option ((ℕ × ℕ × Bool × ℕ × ℕ) × ℕ))
    (c : ℕ × ℕ × Bool × ℕ × ℕ) : Option ((ℕ × ℕ × Bool × ℕ × ℕ) × ℕ) :=
  if feasibleCand g c then
    let wst := match c with | (l, w, _r, x, y) => g.waste x l y w
    match best with
    | none => some (c, wst)
    | some (b, mw) => if wst < mw then some (c, wst) else some (b, mw)
  else best

/-- The `PlacedItem` the loop builds for a candidate tuple. -/
def decorate (precision : ℚ) : ℕ × ℕ × Bool × ℕ × ℕ → PlacedItem :=
  fun c => match c with
  | (l, w, r, x, y) =>
    ⟨⟨fromGridUnits precision l, fromGridUnits precision w⟩, (x, y), r⟩

/-- The search with the rational decoration deferred to the winner. -/
def findBestCand (length width : ℕ) (g : Grid) :
    Option ((ℕ × ℕ × Bool × ℕ × ℕ) × ℕ) :=
  (orientCandidates g.rows g.cols length width).foldl (coreStep g) none

/-- The variant data of a child a container may inspect. A
`QuantityResource` child exposes no `dimensions` attribute. -/
inductive ChildData where
  | quantityChild
  | spatialChild (dims : Dimensions)
  | itemChild (dims : Dimensions) (name : String)
deriving DecidableEq

/-- `isinstance(child, (SpatialResource, Item))` together with the
`.dimensions` read that follows it. -/
def ChildData.spatialDims : ChildData → Option Dimensions
  | .quantityChild => none
  | .spatialChild d => some d
  | .itemChild d _ => some d

/-- A child object: Python identity (`id`) plus its variant data. -/
structure ChildRef where
  id : ℕ
  data : ChildData
deriving DecidableEq

/-- `SpatialResource` state: real dimensions, grid precision, the live
occupancy grid, and the `_children_placements` dict (an association
list in insertion order, keys unique). -/
structure SpatialResource where
  dimensions : Dimensions
  grid_precision : ℚ
  grid : Grid
  placements : List (ChildRef × PlacedItem)
deriving DecidableEq

/-- `SpatialResource.__init__` with `ResourceType`/`unit` omitted:
`int(length/precision)` rows by `int(width/precision)` cols, all cells
free, no children. Division by a zero precision raises
`ZeroDivisionError`; `np.zeros` raises `ValueError` on a negative
dimension; both are modelled as `none`. -/
def mkSpatialResource (length width grid_precision : ℚ) :
    Option SpatialResource :=
  if grid_precision = 0 then none
  else
    let gl := toGridUnits grid_precision length
    let gw := toGridUnits grid_precision width
    if gl < 0 ∨ gw < 0 then none
    else some ⟨⟨length, width⟩, grid_precision, ⟨gl.toNat, gw.toNat, ∅⟩, []⟩

/-- `SpatialResource.get_children`: dict keys in insertion order. -/
def SpatialResource.get_children (s : SpatialResource) : List ChildRef :=
  s.placements.map Prod.fst

/-- `self._children_placements[child]` lookup (`None` when absent). -/
def SpatialResource.placementOf (s : SpatialResource) (child : ChildRef) :
    Option PlacedItem :=
  (s.placements.find? (fun e => decide (e.1 = child))).map Prod.snd

/-- Dict assignment `self._children_placements[child] = placement`:
overwrite in place when the key exists, else append. -/
def upsertPlacement (ps : List (ChildRef × PlacedItem)) (c : ChildRef)
    (p : PlacedItem) : List (ChildRef × PlacedItem) :=
  if ps.any (fun e => decide (e.1 = c)) then
    ps.map (fun e => if e.1 = c then (c, p) else e)
  else ps ++ [(c, p)]

/-- `SpatialResource.add_child_resource`: reject a child without
dimensions; search the live grid; on success mark the winning rectangle
(child footprint, swapped when the placement is rotated) and record the
placement. Returns the Python boolean and the updated state. -/
def SpatialResource.add_child_resource (s : SpatialResource)
    (child : ChildRef) : Bool × SpatialResource :=
  match child.data.spatialDims with
  | none => (false, s)
  | some d =>
    let child_length := (toGridUnits s.grid_precision d.length).toNat
    let child_width := (toGridUnits s.grid_precision d.width).toNat
    match findOptimalPlacementOnGrid s.grid_precision child_length
        child_width s.grid with
    | none => (false, s)
    | some placement =>
      let lw := if placement.rotated then (child_width, child_length)
                else (child_length, child_width)
      (true, { s with
        grid := s.grid.mark placement.position.1 lw.1 placement.position.2
          lw.2,
        placements := upsertPlacement s.placements child placement })

/-- `SpatialResource.remove_child_resource`: look up the stored
placement, convert its stored dimensions back to grid units, swap when
rotated, clear that slice, drop the mapping. -/
def SpatialResource.remove_child_resource (s : SpatialResource)
    (child : ChildRef) : Bool × SpatialResource :=
  match s.placementOf child with
  | none => (false, s)
  | some placement =>
    let l0 := (toGridUnits s.grid_precision placement.dimensions.length).toNat
    let w0 := (toGridUnits s.grid_precision placement.dimensions.width).toNat
    let lw := if placement.rotated then (w0, l0) else (l0, w0)
    (true, { s with
      grid := s.grid.clear placement.position.1 lw.1 placement.position.2
        lw.2,
      placements := s.placements.filter (fun e => !decide (e.1 = child)) })

/-- Loop body of `can_add_child`'s "account for all existing children"
pass: re-run the placement search for one existing child on the scratch
grid and mark the placement it finds, if any. A placed child lacking
dimensions would raise `AttributeError` in Python; it cannot occur in
states built through `add_child_resource`, and the model skips it. -/
def canAddStep (precision : ℚ) (tg : Grid) (ec : ChildRef) : Grid :=
  match ec.data.spatialDims with
  | none => tg
  | some ed =>
    let cl := (toGridUnits precision ed.length).toNat
    let cw := (toGridUnits precision ed.width).toNat
    match findOptimalPlacementOnGrid precision cl cw tg with
    | none => tg
    | some pl =>
      let lw := if pl.rotated then (cw, cl) else (cl, cw)
      tg.mark pl.position.1 lw.1 pl.position.2 lw.2

/-- The scratch grid `can_add_child` builds: a copy of the live grid
with every existing child's re-computed placement marked on top. -/
def SpatialResource.tempGrid (s : SpatialResource) : Grid :=
  s.get_children.foldl (canAddStep s.grid_precision) s.grid

/-- `SpatialResource.can_add_child`: reject a child without dimensions;
otherwise search the scratch grid for the new child's footprint. -/
def SpatialResource.can_add_child (s : SpatialResource)
    (child : ChildRef) : Bool :=
  match child.data.spatialDims with
  | none => false
  | some d =>
    let nl := (toGridUnits s.grid_precision d.length).toNat
    let nw := (toGridUnits s.grid_precision d.width).toNat
    (findOptimalPlacementOnGrid s.grid_precision nl nw s.tempGrid).isSome

/-- `SpatialResource.get_utilization`: occupied cells / total cells. -/
def SpatialResource.get_utilization (s : SpatialResource) : ℚ :=
  (s.grid.occ.card : ℚ) / ((s.grid.rows * s.grid.cols : ℕ) : ℚ)

/-- `QuantityResource` state (`ResourceType`/`unit` omitted). -/
structure QuantityResource where
  max_items : ℤ
  children : List ChildRef
deriving DecidableEq

/-- `QuantityResource.__init__`: no validation, never fails. -/
def mkQuantityResource (max_items : ℤ) : Option QuantityResource :=
  some ⟨max_items, []⟩

/-- `QuantityResource.can_add_child`: `len(children) < max_items`. -/
def QuantityResource.can_add_child (q : QuantityResource)
    (_child : ChildRef) : Bool :=
  decide ((q.children.length : ℤ) < q.max_items)

/-- `QuantityResource.add_child_resource`. -/
def QuantityResource.add_child_resource (q : QuantityResource)
    (child : ChildRef) : Bool × QuantityResource :=
  if q.can_add_child child then
    (true, { q with children := q.children ++ [child] })
  else (false, q)

/-- `QuantityResource.remove_child_resource`: `list.remove` drops the
first occurrence when present. -/
def QuantityResource.remove_child_resource (q : QuantityResource)
    (child : ChildRef) : Bool × QuantityResource :=
  if child ∈ q.children then
    (true, { q with children := q.children.erase child })
  else (false, q)

/-- `QuantityResource.get_utilization`: `len(children) / max_items`. -/
def QuantityResource.get_utilization (q : QuantityResource) : ℚ :=
  (q.children.length : ℚ) / (q.max_items : ℚ)

/-- `Item` state (`unit` omitted). -/
structure Item where
  dimensions : Dimensions
  name : String
deriving DecidableEq

/-- `Item.__init__`: no validation, never fails. -/
def mkItem (length width : ℚ) (name : String) : Option Item :=
  some ⟨⟨length, width⟩, name⟩

/-- `Item.can_add_child`: always false. -/
def Item.can_add_child (_i : Item) (_child : ChildRef) : Bool :=
  false

/-- `Item.add_child_resource`: always false, no state. -/
def Item.add_child_resource (i : Item) (_child : ChildRef) :
    Bool × Item :=
  (false, i)

/-- The closed set of `Resource` variants. -/
inductive Resource where
  | quantity (q : QuantityResource)
  | spatial (s : SpatialResource)
  | item (i : Item)
deriving DecidableEq

/-- Dynamic dispatch of `can_add_child`. -/
def Resource.can_add_child : Resource → ChildRef → Bool
  | .quantity q, c => q.can_add_child c
  | .spatial s, c => s.can_add_child c
  | .item i, c => i.can_add_child c

/-- Dynamic dispatch of `add_child_resource`, returning the Python
boolean and the (possibly) updated receiver. -/
def Resource.add_child_resource : Resource → ChildRef →
    Bool × Resource
  | .quantity q, c =>
    let r := q.add_child_resource c
    (r.1, .quantity r.2)
  | .spatial s, c =>
    let r := s.add_child_resource c
    (r.1, .spatial r.2)
  | .item i, c =>
    let r := i.add_child_resource c
    (r.1, .item r.2)

/-- The waste-minimal bounding-box extents helper used to state the
orientation property: (row extent, column extent) of a cell set. -/
def cellExtents (s : Finset (ℕ × ℕ)) : ℕ × ℕ :=
  if h : s.Nonempty then
    ((s.image Prod.fst).max' (h.image Prod.fst) + 1
      - (s.image Prod.fst).min' (h.image Prod.fst),
     (s.image Prod.snd).max' (h.image Prod.snd) + 1
      - (s.image Prod.snd).min' (h.image Prod.snd))
  else (0, 0)

/-- Concrete children for the test scenarios of the specification. -/
def itemA : ChildRef := ⟨1, .itemChild ⟨2, 2⟩ "itemA"⟩

def itemB : ChildRef := ⟨2, .itemChild ⟨2, 2⟩ "itemB"⟩

def itemSmall : ChildRef := ⟨3, .itemChild ⟨1, 1⟩ "small"⟩

def itemWide : ChildRef := ⟨4, .itemChild ⟨3, 2⟩ "wide"⟩

/-- A fresh 4×4 `SpatialResource` at precision 1. -/
def emptyFour : SpatialResource := ⟨⟨4, 4⟩, 1, ⟨4, 4, ∅⟩, []⟩

def gA : Grid := ⟨4, 4, rectCells 4 4 0 2 0 2⟩

def gAB : Grid := ⟨4, 4, rectCells 4 4 0 2 0 2 ∪ rectCells 4 4 0 2 2 2⟩

def gAB1 : Grid := ⟨4, 4, gAB.occ ∪ rectCells 4 4 2 2 0 2⟩

def gFull : Grid := ⟨4, 4, gAB1.occ ∪ rectCells 4 4 2 2 2 2⟩

/-- The 4×4 container after placing `itemA` at (0,0). -/
def fourA : SpatialResource :=
  ⟨⟨4, 4⟩, 1, gA, [(itemA, ⟨⟨2, 2⟩, (0, 0), false⟩)]⟩

/-- The 4×4 container after placing `itemA` at (0,0) and `itemB` at
(0,2). -/
def fourAB : SpatialResource :=
  ⟨⟨4, 4⟩, 1, gAB,
    [(itemA, ⟨⟨2, 2⟩, (0, 0), false⟩), (itemB, ⟨⟨2, 2⟩, (0, 2), false⟩)]⟩

/-- A fresh 2×3 `SpatialResource` at precision 1. -/
def emptyTwoThree : SpatialResource := ⟨⟨2, 3⟩, 1, ⟨2, 3, ∅⟩, []⟩

def gWide : Grid := ⟨2, 3, rectCells 2 3 0 2 0 3⟩

/-- The placement the search returns for a 3×2 candidate on the empty
2×3 grid: forced into the rotated orientation, with the stored
dimensions being the placed (swapped) extents. -/
def pWide : PlacedItem := ⟨⟨2, 3⟩, (0, 0), true⟩

/-- The 2×3 container after placing `itemWide` (rotated). -/
def twoThreeWide : SpatialResource := ⟨⟨2, 3⟩, 1, gWide, [(itemWide, pWide)]⟩

theorem searchStep_eq_coreStep (precision : ℚ) (g : Grid)
    (best : Option ((ℕ × ℕ × Bool × ℕ × ℕ) × ℕ))
    (c : ℕ × ℕ × Bool × ℕ × ℕ) :
    searchStep precision g
        (best.map (fun p => (decorate precision p.1, p.2))) c
      = (coreStep g best c).map (fun p => (decorate precision p.1, p.2)) := by
  rcases c with ⟨l, w, r, x, y⟩
  by_cases hf : feasibleCand g (l, w, r, x, y)
  · rcases best with _ | ⟨b, mw⟩
    · simp [searchStep, coreStep, hf, decorate]
    · by_cases hw : g.waste x l y w < mw <;>
        simp [searchStep, coreStep, hf, hw, decorate]
  · rcases best with _ | ⟨b, mw⟩ <;> simp [searchStep, coreStep, hf]

theorem foldl_searchStep_eq (precision : ℚ) (g : Grid)
    (cs : List (ℕ × ℕ × Bool × ℕ × ℕ))
    (best : Option ((ℕ × ℕ × Bool × ℕ × ℕ) × ℕ)) :
    cs.foldl (searchStep precision g)
        (best.map (fun p => (decorate precision p.1, p.2)))
      = (cs.foldl (coreStep g) best).map
          (fun p => (decorate precision p.1, p.2)) := by
  induction cs generalizing best with
  | nil => rfl
  | cons c cs ih =>
    simp only [List.foldl_cons]
    rw [searchStep_eq_coreStep]
    exact ih _

/-- The direct translation of the search agrees with the core search
plus decoration of the winner. -/
theorem findOptimalPlacementOnGrid_eq_core (precision : ℚ)
    (length width : ℕ) (g : Grid) :
    findOptimalPlacementOnGrid precision length width g
      = (findBestCand length width g).map
          (fun p => decorate precision p.1) := by
  unfold findOptimalPlacementOnGrid findBestCand
  rw [show (none : Option (PlacedItem × ℕ))
      = (none : Option ((ℕ × ℕ × Bool × ℕ × ℕ) × ℕ)).map
          (fun p => (decorate precision p.1, p.2)) from rfl]
  rw [foldl_searchStep_eq]
  rcases (orientCandidates g.rows g.cols length width).foldl
    (coreStep g) none with _ | ⟨b, mw⟩ <;> rfl

/-- At grid precision 1 the unit conversions are trivial. -/
theorem toGridUnits_one (v : ℚ) : toGridUnits 1 v = truncQ v := by
  simp [toGridUnits]

theorem fromGridUnits_one (n : ℕ) : fromGridUnits 1 n = (n : ℚ) := by
  simp [fromGridUnits]

theorem findOptimal_none_of_core {precision : ℚ} {a b : ℕ} {g : Grid}
    (h : findBestCand a b g = none) :
    findOptimalPlacementOnGrid precision a b g = none := by
  rw [findOptimalPlacementOnGrid_eq_core, h]; rfl

theorem coreStep_eq_none_iff (g : Grid)
    (best : Option ((ℕ × ℕ × Bool × ℕ × ℕ) × ℕ))
    (c : ℕ × ℕ × Bool × ℕ × ℕ) :
    coreStep g best c = none ↔ best = none ∧ feasibleCand g c = false := by
  rcases c with ⟨l, w, r, x, y⟩
  by_cases hf : feasibleCand g (l, w, r, x, y)
  · rcases best with _ | ⟨b, mw⟩ <;>
      · simp only [coreStep, hf, if_true, hf]
        constructor
        · intro h
          first
          | exact absurd h (by simp)
          | (split at h <;> simp_all)
        · rintro ⟨h1, h2⟩
          simp_all
  · rcases best with _ | ⟨b, mw⟩ <;> simp [coreStep, hf]

theorem foldl_coreStep_eq_none_iff (g : Grid)
    (cs : List (ℕ × ℕ × Bool × ℕ × ℕ))
    (best : Option ((ℕ × ℕ × Bool × ℕ × ℕ) × ℕ)) :
    cs.foldl (coreStep g) best = none ↔
      best = none ∧ ∀ c ∈ cs, feasibleCand g c = false := by
  induction cs generalizing best with
  | nil => simp
  | cons c cs ih =>
    simp only [List.foldl_cons, ih, coreStep_eq_none_iff,
      List.forall_mem_cons, and_assoc]

/-- The search fails exactly when no candidate position of either
orientation is feasible. -/
theorem findBestCand_eq_none_iff (a b : ℕ) (g : Grid) :
    findBestCand a b g = none ↔
      ∀ c ∈ orientCandidates g.rows g.cols a b,
        feasibleCand g c = false := by
  unfold findBestCand
  rw [foldl_coreStep_eq_none_iff]
  simp

/-- Feasibility on a grid with more occupied cells (same shape) implies
feasibility on the original grid. -/
theorem feasibleCand_mono {g g' : Grid} (hr : g'.rows = g.rows)
    (hc : g'.cols = g.cols) (hsub : g.occ ⊆ g'.occ)
    {c : ℕ × ℕ × Bool × ℕ × ℕ} (h : feasibleCand g' c = true) :
    feasibleCand g c = true := by
  rcases c with ⟨l, w, r, x, y⟩
  simp only [feasibleCand, Grid.sliceAny, Bool.not_eq_true',
    decide_eq_false_iff_not, Finset.not_nonempty_iff_eq_empty] at h ⊢
  rw [hr, hc] at h
  exact Finset.subset_empty.mp
    (h ▸ Finset.inter_subset_inter (Finset.Subset.refl _) hsub)

/-- If the search succeeds on a grid with more occupied cells (same
shape), it succeeds on the original grid. -/
theorem findBestCand_ne_none_mono {g g' : Grid} (hr : g'.rows = g.rows)
    (hc : g'.cols = g.cols) (hsub : g.occ ⊆ g'.occ) {a b : ℕ}
    (h : findBestCand a b g' ≠ none) : findBestCand a b g ≠ none := by
  intro hnone
  rw [findBestCand_eq_none_iff] at hnone
  refine h ?_
  rw [findBestCand_eq_none_iff]
  intro c hcmem
  rw [hr, hc] at hcmem
  cases hfe : feasibleCand g' c with
  | false => rfl
  | true =>
    have hg : feasibleCand g c = true := feasibleCand_mono hr hc hsub hfe
    rw [hnone c hcmem] at hg
    exact absurd hg (by simp)

/-- One pass of `can_add_child`'s reconstruction loop keeps the grid
shape and only adds occupied cells. -/
theorem canAddStep_super (precision : ℚ) (tg : Grid) (ec : ChildRef) :
    (canAddStep precision tg ec).rows = tg.rows ∧
    (canAddStep precision tg ec).cols = tg.cols ∧
    tg.occ ⊆ (canAddStep precision tg ec).occ := by
  unfold canAddStep
  rcases ec.data.spatialDims with _ | ed
  · exact ⟨rfl, rfl, Finset.Subset.refl _⟩
  · simp only
    rcases findOptimalPlacementOnGrid precision
        (toGridUnits precision ed.length).toNat
        (toGridUnits precision ed.width).toNat tg with _ | pl
    · exact ⟨rfl, rfl, Finset.Subset.refl _⟩
    · exact ⟨rfl, rfl, Finset.subset_union_left⟩

theorem foldl_canAddStep_super (precision : ℚ) (cs : List ChildRef) :
    ∀ tg : Grid,
      (cs.foldl (canAddStep precision) tg).rows = tg.rows ∧
      (cs.foldl (canAddStep precision) tg).cols = tg.cols ∧
      tg.occ ⊆ (cs.foldl (canAddStep precision) tg).occ := by
  induction cs with
  | nil => exact fun tg => ⟨rfl, rfl, Finset.Subset.refl _⟩
  | cons c cs ih =>
    intro tg
    obtain ⟨h1, h2, h3⟩ := ih (canAddStep precision tg c)
    obtain ⟨g1, g2, g3⟩ := canAddStep_super precision tg c
    exact ⟨h1.trans g1, h2.trans g2,
      Finset.Subset.trans g3 h3⟩

/-- The scratch grid of `can_add_child` has the live grid's shape and
at least its occupied cells. -/
theorem tempGrid_super (s : SpatialResource) :
    s.tempGrid.rows = s.grid.rows ∧ s.tempGrid.cols = s.grid.cols ∧
    s.grid.occ ⊆ s.tempGrid.occ :=
  foldl_canAddStep_super s.grid_precision s.get_children s.grid

theorem spatial_can_add_sound (s : SpatialResource) (c : ChildRef)
    (h : s.can_add_child c = true) : (s.add_child_resource c).1 = true := by
  rcases hd : c.data.spatialDims with _ | d
  · simp [SpatialResource.can_add_child, hd] at h
  · simp only [SpatialResource.can_add_child, hd] at h
    have hne' : findBestCand (toGridUnits s.grid_precision d.length).toNat
        (toGridUnits s.grid_precision d.width).toNat s.tempGrid ≠ none := by
      intro hn
      rw [findOptimal_none_of_core hn] at h
      exact absurd h (by simp)
    have htemp := tempGrid_super s
    have hne : findBestCand (toGridUnits s.grid_precision d.length).toNat
        (toGridUnits s.grid_precision d.width).toNat s.grid ≠ none :=
      findBestCand_ne_none_mono htemp.1 htemp.2.1 htemp.2.2 hne'
    rcases hfind : findOptimalPlacementOnGrid s.grid_precision
        (toGridUnits s.grid_precision d.length).toNat
        (toGridUnits s.grid_precision d.width).toNat s.grid with _ | pl
    · rw [findOptimalPlacementOnGrid_eq_core] at hfind
      exact absurd (Option.map_eq_none'.mp hfind) hne
    · simp [SpatialResource.add_child_resource, hd, hfind]

/-- C5: for every Resource variant and every state, if `can_add_child`
returns true then an immediately following `add_child_resource` on the
same state also returns true. (For `SpatialResource` this holds because
the scratch grid probed by `can_add_child` carries at least the live
grid's occupied cells, so a fit found there is also found on the live
grid; for `QuantityResource` both run the same capacity test; for
`Item` the hypothesis is never satisfied.) -/
theorem can_add_child_sound (r : Resource) (c : ChildRef)
    (h : r.can_add_child c = true) : (r.add_child_resource c).1 = true := by
  cases r with
  | quantity q =>
    simp only [Resource.can_add_child] at h
    simp [Resource.add_child_resource, QuantityResource.add_child_resource, h]
  | spatial s =>
    simp only [Resource.can_add_child] at h
    exact spatial_can_add_sound s c h
  | item i =>
    simp [Resource.can_add_child, Item.can_add_child] at h

/-- Witness for C5 at a concrete input: a `QuantityResource` with two
free slots admits a child. -/
theorem can_add_child_sound_witness :
    ((Resource.quantity ⟨2, []⟩).add_child_resource
      ⟨1, .itemChild ⟨2, 2⟩ "itemA"⟩).1 = true :=
  can_add_child_sound (Resource.quantity ⟨2, []⟩)
    ⟨1, .itemChild ⟨2, 2⟩ "itemA"⟩ (by decide)

/-- C7: a failed `add_child_resource` leaves the receiver unchanged —
for a `SpatialResource` neither grid nor placement mapping moves, for a
`QuantityResource` the child sequence is untouched. -/
theorem add_failure_preserves_state (r : Resource) (c : ChildRef)
    (h : (r.add_child_resource c).1 = false) :
    (r.add_child_resource c).2 = r := by
  cases r with
  | quantity q =>
    by_cases hc : q.can_add_child c
    · simp [Resource.add_child_resource, QuantityResource.add_child_resource,
        hc] at h
    · simp [Resource.add_child_resource, QuantityResource.add_child_resource,
        hc]
  | spatial s =>
    rcases hd : c.data.spatialDims with _ | d
    · simp [Resource.add_child_resource, SpatialResource.add_child_resource,
        hd]
    · rcases hfind : findOptimalPlacementOnGrid s.grid_precision
          (toGridUnits s.grid_precision d.length).toNat
          (toGridUnits s.grid_precision d.width).toNat s.grid with _ | pl
      · simp [Resource.add_child_resource, SpatialResource.add_child_resource,
          hd, hfind]
      · simp [Resource.add_child_resource, SpatialResource.add_child_resource,
          hd, hfind] at h
  | item i => rfl

/-- Witness for C7 at a concrete input: adding to an `Item` leaf fails
and leaves it unchanged. -/
theorem add_failure_preserves_state_witness :
    ((Resource.item ⟨⟨1, 1⟩, "leaf"⟩).add_child_resource
      ⟨1, .itemChild ⟨2, 2⟩ "itemA"⟩).2 = Resource.item ⟨⟨1, 1⟩, "leaf"⟩ :=
  add_failure_preserves_state (Resource.item ⟨⟨1, 1⟩, "leaf"⟩)
    ⟨1, .itemChild ⟨2, 2⟩ "itemA"⟩ rfl

/-- C10: a `SpatialResource` rejects a candidate that is neither a
`SpatialResource` nor an `Item` — both probes return false and the
state (grid and mapping) is returned unchanged. -/
theorem spatial_rejects_non_spatial_child (s : SpatialResource)
    (c : ChildRef) (h : c.data = ChildData.quantityChild) :
    s.can_add_child c = false ∧ s.add_child_resource c = (false, s) := by
  have hd : c.data.spatialDims = none := by rw [h]; rfl
  exact ⟨by simp [SpatialResource.can_add_child, hd],
    by simp [SpatialResource.add_child_resource, hd]⟩

/-- Witness for C10 at a concrete input. -/
theorem spatial_rejects_non_spatial_child_witness :
    (SpatialResource.can_add_child ⟨⟨4, 4⟩, 1, ⟨4, 4, ∅⟩, []⟩
        ⟨9, ChildData.quantityChild⟩ = false)
    ∧ SpatialResource.add_child_resource ⟨⟨4, 4⟩, 1, ⟨4, 4, ∅⟩, []⟩
        ⟨9, ChildData.quantityChild⟩
      = (false, ⟨⟨4, 4⟩, 1, ⟨4, 4, ∅⟩, []⟩) :=
  spatial_rejects_non_spatial_child ⟨⟨4, 4⟩, 1, ⟨4, 4, ∅⟩, []⟩
    ⟨9, ChildData.quantityChild⟩ rfl

/-- C9: `QuantityResource` behaviour — add succeeds exactly below
capacity and appends at the end; remove succeeds exactly for a present
child and erases its first occurrence; utilization is count divided by
capacity. -/
theorem quantity_resource_contract (q : QuantityResource) (c : ChildRef) :
    ((q.add_child_resource c).1 = true ↔
      (q.children.length : ℤ) < q.max_items)
  ∧ ((q.add_child_resource c).1 = true →
      (q.add_child_resource c).2.children = q.children ++ [c])
  ∧ ((q.remove_child_resource c).1 = true ↔ c ∈ q.children)
  ∧ ((q.remove_child_resource c).1 = true →
      (q.remove_child_resource c).2.children = q.children.erase c)
  ∧ q.get_utilization = (q.children.length : ℚ) / (q.max_items : ℚ) := by
  refine ⟨?_, ?_, ?_, ?_, rfl⟩
  · by_cases hc : (q.children.length : ℤ) < q.max_items <;>
      simp [QuantityResource.add_child_resource,
        QuantityResource.can_add_child, hc]
  · intro h
    by_cases hc : q.can_add_child c
    · simp [QuantityResource.add_child_resource, hc]
    · simp [QuantityResource.add_child_resource, hc] at h
  · by_cases hm : c ∈ q.children <;>
      simp [QuantityResource.remove_child_resource, hm]
  · intro h
    by_cases hm : c ∈ q.children
    · simp [QuantityResource.remove_child_resource, hm]
    · simp [QuantityResource.remove_child_resource, hm] at h

/-- Witness for C9 at a concrete input: capacity 2 with one child
present admits a duplicate identity and removes the first occurrence. -/
theorem quantity_resource_contract_witness :
    ((QuantityResource.add_child_resource ⟨2, [⟨1, .itemChild ⟨2, 2⟩ "itemA"⟩]⟩
        ⟨1, .itemChild ⟨2, 2⟩ "itemA"⟩).2.children
      = [⟨1, .itemChild ⟨2, 2⟩ "itemA"⟩, ⟨1, .itemChild ⟨2, 2⟩ "itemA"⟩])
    ∧ ((QuantityResource.remove_child_resource
        ⟨2, [⟨1, .itemChild ⟨2, 2⟩ "itemA"⟩]⟩
        ⟨1, .itemChild ⟨2, 2⟩ "itemA"⟩).2.children
      = List.erase [⟨1, .itemChild ⟨2, 2⟩ "itemA"⟩]
          ⟨1, .itemChild ⟨2, 2⟩ "itemA"⟩) :=
  ⟨(quantity_resource_contract ⟨2, [⟨1, .itemChild ⟨2, 2⟩ "itemA"⟩]⟩
      ⟨1, .itemChild ⟨2, 2⟩ "itemA"⟩).2.1 (by decide),
   (quantity_resource_contract ⟨2, [⟨1, .itemChild ⟨2, 2⟩ "itemA"⟩]⟩
      ⟨1, .itemChild ⟨2, 2⟩ "itemA"⟩).2.2.2.1 (by decide)⟩

theorem toGrid_one_one : (toGridUnits 1 1).toNat = 1 := by
  rw [toGridUnits_one]
  norm_num [truncQ]

theorem toGrid_one_two : (toGridUnits 1 2).toNat = 2 := by
  rw [toGridUnits_one]
  norm_num [truncQ]
  decide

theorem toGrid_one_three : (toGridUnits 1 3).toNat = 3 := by
  rw [toGridUnits_one]
  norm_num [truncQ]
  decide

theorem findFour22 : findOptimalPlacementOnGrid 1 2 2 ⟨4, 4, ∅⟩
    = some ⟨⟨2, 2⟩, (0, 0), false⟩ := by
  rw [findOptimalPlacementOnGrid_eq_core,
    show findBestCand 2 2 ⟨4, 4, ∅⟩ = some ((2, 2, false, 0, 0), 0) by decide]
  simp [decorate, fromGridUnits_one]

theorem findGA22 : findOptimalPlacementOnGrid 1 2 2 gA
    = some ⟨⟨2, 2⟩, (0, 2), false⟩ := by
  rw [findOptimalPlacementOnGrid_eq_core,
    show findBestCand 2 2 gA = some ((2, 2, false, 0, 2), 0) by decide]
  simp [decorate, fromGridUnits_one]

theorem findGAB22 : findOptimalPlacementOnGrid 1 2 2 gAB
    = some ⟨⟨2, 2⟩, (2, 0), false⟩ := by
  rw [findOptimalPlacementOnGrid_eq_core,
    show findBestCand 2 2 gAB = some ((2, 2, false, 2, 0), 4) by decide]
  simp [decorate, fromGridUnits_one]

theorem findGAB1_22 : findOptimalPlacementOnGrid 1 2 2 gAB1
    = some ⟨⟨2, 2⟩, (2, 2), false⟩ := by
  rw [findOptimalPlacementOnGrid_eq_core,
    show findBestCand 2 2 gAB1 = some ((2, 2, false, 2, 2), 0) by decide]
  simp [decorate, fromGridUnits_one]

theorem findGFull11 : findOptimalPlacementOnGrid 1 1 1 gFull = none := by
  rw [findOptimalPlacementOnGrid_eq_core,
    show findBestCand 1 1 gFull = none by decide]
  rfl

theorem findGAB11 : findOptimalPlacementOnGrid 1 1 1 gAB
    = some ⟨⟨1, 1⟩, (2, 0), false⟩ := by
  rw [findOptimalPlacementOnGrid_eq_core,
    show findBestCand 1 1 gAB = some ((1, 1, false, 2, 0), 3) by decide]
  simp [decorate, fromGridUnits_one]

theorem addItemA : emptyFour.add_child_resource itemA = (true, fourA) := by
  simp only [SpatialResource.add_child_resource, itemA, ChildData.spatialDims,
    emptyFour, toGrid_one_two, findFour22]
  decide

theorem addItemB : fourA.add_child_resource itemB = (true, fourAB) := by
  simp only [SpatialResource.add_child_resource, itemB, ChildData.spatialDims]
  rw [show fourA.grid_precision = 1 from rfl, show fourA.grid = gA from rfl]
  rw [toGrid_one_two, findGA22]
  decide

theorem canAddStepA : canAddStep 1 gAB itemA = gAB1 := by
  simp only [canAddStep, itemA, ChildData.spatialDims, toGrid_one_two,
    findGAB22]
  decide

theorem canAddStepB : canAddStep 1 gAB1 itemB = gFull := by
  simp only [canAddStep, itemB, ChildData.spatialDims, toGrid_one_two,
    findGAB1_22]
  decide

/-- The scratch grid `can_add_child` builds on the two-item state: the
re-run searches double-place both items and fill the copy entirely. -/
theorem tempAB : fourAB.tempGrid = gFull := by
  simp only [SpatialResource.tempGrid, SpatialResource.get_children]
  rw [show fourAB.grid_precision = 1 from rfl,
    show fourAB.placements.map Prod.fst = [itemA, itemB] from rfl,
    show fourAB.grid = gAB from rfl]
  simp only [List.foldl_cons, List.foldl_nil, canAddStepA, canAddStepB]

theorem canAddSmallAB : fourAB.can_add_child itemSmall = false := by
  simp only [SpatialResource.can_add_child, itemSmall, ChildData.spatialDims]
  rw [tempAB, show fourAB.grid_precision = 1 from rfl, toGrid_one_one,
    findGFull11]
  rfl

theorem addSmallAB : (fourAB.add_child_resource itemSmall).1 = true := by
  simp only [SpatialResource.add_child_resource, itemSmall,
    ChildData.spatialDims]
  rw [show fourAB.grid_precision = 1 from rfl, toGrid_one_one,
    show fourAB.grid = gAB from rfl, findGAB11]

theorem utilA : fourA.get_utilization = 4 / 16 := by
  rw [SpatialResource.get_utilization,
    show fourA.grid.occ.card = 4 from by decide,
    show fourA.grid.rows = 4 from rfl, show fourA.grid.cols = 4 from rfl]
  norm_num

theorem utilAB : fourAB.get_utilization = 8 / 16 := by
  rw [SpatialResource.get_utilization,
    show fourAB.grid.occ.card = 8 from by decide,
    show fourAB.grid.rows = 4 from rfl, show fourAB.grid.cols = 4 from rfl]
  norm_num

/-- C6: on an empty 4×4 `SpatialResource` (precision 1), adding an
`Item(2,2)` succeeds at position (0,0) unrotated with utilization 4/16,
and adding a second `Item(2,2)` then succeeds at position (0,2) — the
first zero-waste candidate in the ascending x-then-y scan (unrotated
before rotated, strict-improvement tie-break) — with utilization
8/16. -/
theorem four_by_four_two_items_scenario :
    emptyFour.add_child_resource itemA = (true, fourA)
  ∧ fourA.placementOf itemA = some ⟨⟨2, 2⟩, (0, 0), false⟩
  ∧ fourA.get_utilization = 4 / 16
  ∧ fourA.add_child_resource itemB = (true, fourAB)
  ∧ fourAB.placementOf itemB = some ⟨⟨2, 2⟩, (0, 2), false⟩
  ∧ fourAB.get_utilization = 8 / 16 :=
  ⟨addItemA, by decide, utilA, addItemB, by decide, utilAB⟩

/-- C1: the claimed equivalence between `can_add_child` and
`add_child_resource` fails on the code. On the 4×4 state reached by the
two adds below, `can_add_child` re-runs the placement search for the
two existing children on a copy of the live grid (double-placing them),
fills the copy completely, and answers false for a 1×1 item that
`add_child_resource` accepts on the live grid. -/
theorem can_add_child_disagrees_with_add :
    emptyFour.add_child_resource itemA = (true, fourA)
  ∧ fourA.add_child_resource itemB = (true, fourAB)
  ∧ fourAB.can_add_child itemSmall = false
  ∧ (fourAB.add_child_resource itemSmall).1 = true :=
  ⟨addItemA, addItemB, canAddSmallAB, addSmallAB⟩

theorem findTwoThree32 : findOptimalPlacementOnGrid 1 3 2 ⟨2, 3, ∅⟩
    = some pWide := by
  rw [findOptimalPlacementOnGrid_eq_core,
    show findBestCand 3 2 ⟨2, 3, ∅⟩ = some ((2, 3, true, 0, 0), 0) by decide]
  simp [decorate, fromGridUnits_one, pWide]

theorem addItemWide :
    emptyTwoThree.add_child_resource itemWide = (true, twoThreeWide) := by
  simp only [SpatialResource.add_child_resource, itemWide,
    ChildData.spatialDims, emptyTwoThree, toGrid_one_three, toGrid_one_two,
    findTwoThree32]
  decide

theorem removeItemWide :
    twoThreeWide.remove_child_resource itemWide
      = (true, ⟨⟨2, 3⟩, 1, ⟨2, 3, {(0, 2), (1, 2)}⟩, []⟩) := by
  simp only [SpatialResource.remove_child_resource]
  rw [show twoThreeWide.placementOf itemWide = some pWide from by decide]
  simp only [pWide]
  rw [show twoThreeWide.grid_precision = 1 from rfl]
  rw [toGrid_one_two, toGrid_one_three]
  decide

/-- C2: falsified at a concrete input. On an empty 2×3 grid a 3×2
candidate fits only rotated, and the returned `PlacedItem.dimensions`
is the swapped placed extents (2,3), not the original pre-rotation
candidate length/width (3,2); position and rotated flag do match the
winning orientation. -/
theorem search_returns_swapped_dimensions :
    findOptimalPlacementOnGrid 1 3 2 ⟨2, 3, ∅⟩ = some ⟨⟨2, 3⟩, (0, 0), true⟩
  ∧ (⟨2, 3⟩ : Dimensions) ≠ ⟨3, 2⟩ :=
  ⟨findTwoThree32.trans (by decide), by decide⟩

/-- C3: falsified at a concrete input. Adding the 3×2 item to the empty
2×3 container succeeds (rotated, filling the grid); the immediately
following remove returns true but un-swaps the already-swapped stored
dimensions, clears the wrong (clipped) rectangle, and leaves cells
(0,2) and (1,2) occupied instead of restoring the empty grid. -/
theorem rotated_round_trip_not_restored :
    emptyTwoThree.add_child_resource itemWide = (true, twoThreeWide)
  ∧ (twoThreeWide.remove_child_resource itemWide).1 = true
  ∧ (twoThreeWide.remove_child_resource itemWide).2.grid
      ≠ emptyTwoThree.grid :=
  ⟨addItemWide, by rw [removeItemWide], by rw [removeItemWide]; decide⟩

/-- C4: falsified at a concrete input. For the rotated placement of the
3×2 item, the rectangle of cells marked occupied has extents (2,3) —
equal to the stored `PlacedItem` dimensions read directly, not to the
stored dimensions' length/width swapped, which would be (3,2). -/
theorem rotated_occupied_extents_unswapped :
    emptyTwoThree.add_child_resource itemWide = (true, twoThreeWide)
  ∧ twoThreeWide.placementOf itemWide = some ⟨⟨2, 3⟩, (0, 0), true⟩
  ∧ cellExtents twoThreeWide.grid.occ = (2, 3)
  ∧ ((toGridUnits twoThreeWide.grid_precision (3 : ℚ)).toNat,
     (toGridUnits twoThreeWide.grid_precision (2 : ℚ)).toNat) = (3, 2)
  ∧ ((2 : ℕ), (3 : ℕ)) ≠ ((3 : ℕ), (2 : ℕ)) :=
  ⟨addItemWide, by decide, by decide,
   by rw [show twoThreeWide.grid_precision = 1 from rfl, toGrid_one_three,
     toGrid_one_two],
   by decide⟩

/-- C8, counterexample: non-positive numeric constructor arguments do
not fail construction — an `Item` with zero length, a
`QuantityResource` with negative capacity, and a `SpatialResource` with
zero length and width all construct successfully. -/
theorem nonpositive_construction_succeeds :
    mkItem 0 2 "sheet" = some ⟨⟨0, 2⟩, "sheet"⟩
  ∧ mkQuantityResource (-1) = some ⟨-1, []⟩
  ∧ mkSpatialResource 0 0 1 = some ⟨⟨0, 0⟩, 1, ⟨0, 0, ∅⟩, []⟩ := by
  refine ⟨rfl, rfl, ?_⟩
  simp only [mkSpatialResource, toGridUnits_one]
  rw [if_neg (by norm_num : ¬ (1 : ℚ) = 0),
    show truncQ 0 = 0 from by norm_num [truncQ]]
  norm_num

/-- C8, amended: construction performs no positivity validation. `Item`
and `QuantityResource` constructors always succeed; `SpatialResource`
construction fails exactly when the precision is zero (Python
`ZeroDivisionError`) or a computed grid dimension `int(side/precision)`
is negative (numpy rejects negative sizes). -/
theorem construction_no_validation (l w p : ℚ) (m : ℤ) (nm : String) :
    (mkItem l w nm).isSome
  ∧ (mkQuantityResource m).isSome
  ∧ (mkSpatialResource l w p = none ↔
      p = 0 ∨ toGridUnits p l < 0 ∨ toGridUnits p w < 0) := by
  refine ⟨rfl, rfl, ?_⟩
  unfold mkSpatialResource
  by_cases hp : p = 0
  · simp [hp]
  · by_cases hneg : toGridUnits p l < 0 ∨ toGridUnits p w < 0
    · simp [hp, hneg]
    · simp [hp, hneg]
